import Mathlib

/-
Verification development for the PromptCrafter AI background request
orchestration core (promptcraft_ai_qt.py).  The definitions below are a
shallow embedding of the worker (GeminiWorker), the scheduler entry point
(PromptCraftAI_Qt._trigger_gemini_operation), the response sanitizer and
payload builder embedded in GeminiWorker._generate_single_prompt_core /
run_vision_generation, and the result-entry classification of
PromptCraftAI_Qt._handle_gemini_results.  Remote model calls are abstracted
as oracle functions returning either a raw response string or an exception
message; the cooperative cancellation flag (quit_requested), which the UI
thread may set at any moment, is modelled as a function from checkpoint
index to Bool, each read of the flag consuming the next index in program
order.
-/

namespace PromptCraft

/-- Python str.isspace for the ASCII characters stripped by str.strip:
space (32), tab (9), newline (10), vertical tab (11), form feed (12),
carriage return (13). -/
def pyIsSpace (c : Char) : Bool :=
  c.toNat = 32 || (9 ≤ c.toNat && c.toNat ≤ 13)

/-- Python str.lstrip on the character list. -/
def lstripL (l : List Char) : List Char := l.dropWhile pyIsSpace

/-- Python str.rstrip on the character list. -/
def rstripL (l : List Char) : List Char := (l.reverse.dropWhile pyIsSpace).reverse

/-- Python str.strip on the character list. -/
def stripLC (l : List Char) : List Char := rstripL (lstripL l)

/-- Python str.lstrip. -/
def pyLStrip (s : String) : String := ⟨lstripL s.data⟩

/-- Python str.rstrip. -/
def pyRStrip (s : String) : String := ⟨rstripL s.data⟩

/-- Python str.strip. -/
def pyStrip (s : String) : String := ⟨stripLC s.data⟩

/-- Python str.lower (the phrases involved are ASCII). -/
def pyLower (s : String) : String := ⟨s.data.map Char.toLower⟩

/-- Boolean list version of startsWith: does the second list begin with the
first one. -/
def startsWithL : List Char → List Char → Bool
  | [], _ => true
  | _ :: _, [] => false
  | a :: pa, b :: lb => a == b && startsWithL pa lb

/-- Does the haystack (second argument) contain the needle (first argument)
as a contiguous substring, as the Python in-operator on str. -/
def containsL (needle : List Char) : List Char → Bool
  | [] => needle.isEmpty
  | b :: lb => startsWithL needle (b :: lb) || containsL needle lb

/-- Python text.lower().startswith(phrase.lower()), promptcraft_ai_qt.py
lines 299 and 351. -/
def matches_start (phrase text : String) : Bool :=
  startsWithL (pyLower phrase).data (pyLower text).data

/-- Python text.lower().endswith(phrase.lower()), promptcraft_ai_qt.py
line 301. -/
def matches_end (phrase text : String) : Bool :=
  startsWithL (pyLower phrase).data.reverse (pyLower text).data.reverse

/-- The loop of promptcraft_ai_qt.py lines 298-299 (also 350-351): walk the
phrase list in order; on the first case-insensitive match at the start,
remove exactly that many characters, lstrip, and stop (break). -/
def strip_first_start : List String → String → String
  | [], t => t
  | p :: ps, t =>
    if matches_start p t then pyLStrip ⟨t.data.drop p.data.length⟩
    else strip_first_start ps t

/-- The loop of promptcraft_ai_qt.py lines 300-301: walk the phrase list in
order; on the first case-insensitive match at the end, remove exactly that
many characters from the end, rstrip, and stop (break). -/
def strip_first_end : List String → String → String
  | [], t => t
  | p :: ps, t =>
    if matches_end p t then pyRStrip ⟨t.data.take (t.data.length - p.data.length)⟩
    else strip_first_end ps t

/-- The unwanted_starts list of promptcraft_ai_qt.py lines 290-294. -/
def unwanted_starts : List String :=
  ["Okay, here's the prompt:", "Okay, here is the prompt:", "Here's the prompt:",
   "Here is the prompt:", "Sure, here's a prompt:", "Sure, here is a prompt:",
   "Here's a prompt for you:", "Here is a prompt for you:", "Prompt:",
   "Generated Prompt:", "Okay, here's a variation:", "Here's another variation:"]

/-- The unwanted_ends list of promptcraft_ai_qt.py lines 295-297. -/
def unwanted_ends : List String :=
  ["Let me know if you'd like another one!", "Hope this helps!",
   "Is there anything else I can help with?"]

/-- The unwanted_starts list of the vision path, promptcraft_ai_qt.py
line 349. -/
def vision_unwanted_starts : List String :=
  ["Prompt:", "Here's a prompt based on the image:", "Image Description Prompt:",
   "Video Prompt Idea:"]

/-- Sanitization performed on a raw text-model response by
GeminiWorker._generate_single_prompt_core, lines 289-302: strip, remove the
first matching prefix phrase, remove the first matching suffix phrase,
strip again. -/
def sanitizeText (raw : String) : String :=
  pyStrip (strip_first_end unwanted_ends (strip_first_start unwanted_starts (pyStrip raw)))

/-- Sanitization performed on a raw vision-model response by
GeminiWorker.run_vision_generation, lines 348-351: strip, then remove the
first matching prefix phrase; no suffix phrases, no final strip. -/
def sanitizeVision (raw : String) : String :=
  strip_first_start vision_unwanted_starts (pyStrip raw)

/-- Default text and vision model id, promptcraft_ai_qt.py lines 25-26
(absent the environment override). -/
def TEXT_MODEL_NAME_TO_TRY : String := "gemini-2.0-flash-thinking-exp-1219"

/-- Default vision model id, promptcraft_ai_qt.py line 26. -/
def VISION_MODEL_NAME_TO_TRY : String := "gemini-2.0-flash-thinking-exp-1219"

/-- The variation_prompts rotation, promptcraft_ai_qt.py lines 277-282. -/
def variation_prompts : List String :=
  ["Provide another distinctly detailed variation based on the core request.",
   "Offer a slightly different creative and highly descriptive take on the same core idea, delivering only the prompt.",
   "Generate an alternative version of the prompt, exploring a different angle with rich detail, outputting only the prompt.",
   "Give one more unique and detailed variant for this prompt idea, as only the prompt itself."]

/-- The fixed system_instruction text, promptcraft_ai_qt.py lines 264-272. -/
def system_instruction_base : String :=
  "You are PromptCraft AI, an expert prompt engineering assistant. Your SOLE task is to generate a highly detailed, evocative, and comprehensive prompt suitable for an advanced AI image, video, or text generator, based on the user's request. The prompt should be rich in descriptive adjectives, specific nouns, and clearly articulate desired aesthetics, mood, and composition. Consider elements like subject details, environment, artistic style, lighting, camera view, color palette, and emotional tone. DO NOT include any conversational preambles, explanations, or any text other than the prompt itself. The output MUST be ONLY the generated prompt. If asked for variations, ensure each variation is distinct, creative, and also ONLY the prompt, maintaining a high level of detail."

/-- The system_instruction after the context addition of lines 273-274
(Python truthiness: the addition happens only for a non-empty context). -/
def system_instruction (ctx : String) : String :=
  if ctx = "" then system_instruction_base
  else system_instruction_base ++ "\nContext for this specific request: The user is trying to generate a '" ++ ctx ++ "'. Emphasize detail and richness for this type of prompt."

/-- The variation_modifier of promptcraft_ai_qt.py lines 275-283: present
only when the num_variations_for_worker global exceeds 1 and the variation
index is positive, selected by index modulo the rotation length. -/
def variation_modifier (num_variations_for_worker i : Nat) : String :=
  if 1 < num_variations_for_worker ∧ 0 < i then
    "\n\nInstruction for this specific variation (out of several): " ++
      variation_prompts.getD (i % variation_prompts.length) "" ++
      " Ensure maximum detail and output only the prompt."
  else ""

/-- The gemini_prompt_payload f-string of promptcraft_ai_qt.py line 284. -/
def gemini_prompt_payload (user_query ctx : String) (num_variations_for_worker i : Nat) : String :=
  system_instruction ctx ++ "\n\nUser's Request Details (aim for high detail):\n" ++
    user_query ++ variation_modifier num_variations_for_worker i

/-- Outcome of one remote generate_content call: a raw response text, or
the message of the exception it raised. -/
inductive RemoteRes
  | ok (raw : String)
  | err (msg : String)
deriving DecidableEq

/-- One event emitted by the worker: the result-ready callback payload, the
error-occurred callback message, or the finished signal. -/
inductive Ev
  | result (xs : List String)
  | error (msg : String)
  | finished
deriving DecidableEq

/-- Message of the ConnectionError raised at promptcraft_ai_qt.py line 287
when the text model is uninitialized. -/
def text_not_init_msg : String :=
  "Text model ('" ++ TEXT_MODEL_NAME_TO_TRY ++ "') is not initialized. Cannot generate text-based prompt."

/-- The per-variation error string built by the except clause at
promptcraft_ai_qt.py line 306. -/
def api_error_msg (i : Nat) (e : String) : String :=
  "API Error (Text Gen - Variation " ++ toString (i + 1) ++ "): " ++ e

/-- GeminiWorker._generate_single_prompt_core, lines 260-306, restricted to
its observable result string: the quit check at line 262 (reading the flag
at checkpoint tick), the ConnectionError raise at lines 286-287 caught by
the except clause at 303-306, the remote call abstracted by the oracle, and
the sanitization of lines 289-302. -/
def generate_single_prompt_core (quit : Nat → Bool) (text_model : Bool)
    (remote : Nat → RemoteRes) (i tick : Nat) : String :=
  if quit tick then "Operation cancelled by user."
  else if !text_model then api_error_msg i text_not_init_msg
  else match remote i with
    | .ok raw => sanitizeText raw
    | .err e => api_error_msg i e

/-- The loop of GeminiWorker.run_text_generation, lines 310-314, with fuel
the number of remaining iterations, i the current variation index, and tick
the next cancellation checkpoint (line 312 reads tick, the core check at
line 262 reads tick+1).  On a cancellation observed at the loop boundary a
single sentinel entry is appended and the loop breaks. -/
def text_results (quit : Nat → Bool) (text_model : Bool) (remote : Nat → RemoteRes) :
    Nat → Nat → Nat → List String
  | 0, _, _ => []
  | n + 1, i, tick =>
    if quit tick then ["Batch operation cancelled by user."]
    else generate_single_prompt_core quit text_model remote i (tick + 1) ::
      text_results quit text_model remote n (i + 1) (tick + 2)

/-- GeminiWorker.run_text_generation, lines 308-316: emit the accumulated
list through result_ready, then finished. -/
def run_text_generation (quit : Nat → Bool) (text_model : Bool)
    (remote : Nat → RemoteRes) (num_variations : Nat) : List Ev :=
  [Ev.result (text_results quit text_model remote num_variations 0 1), Ev.finished]

/-- Message emitted at promptcraft_ai_qt.py line 320 when the vision model
is uninitialized. -/
def vision_not_init_msg : String :=
  "Vision model ('" ++ VISION_MODEL_NAME_TO_TRY ++ "') is not initialized."

/-- The result entry built at promptcraft_ai_qt.py line 352: the sanitized
text, or the fixed placeholder when it is empty. -/
def vision_output (ctx raw : String) : String :=
  let s := sanitizeVision raw
  if s = "" then "Gemini Vision returned an empty description for the " ++ ctx ++ " prompt."
  else s

/-- GeminiWorker.run_vision_generation, lines 318-358.  The quit check of
line 319 reads checkpoint tick; the one at line 346, inside the try block,
reads tick+1.  The line 346 branch emits error then finished and returns,
after which the finally clause at lines 357-358 emits finished again; the
early returns of lines 319-321 are before the try block so they emit
finished once. -/
def run_vision_generation (quit : Nat → Bool) (vision_model has_image : Bool)
    (remote : RemoteRes) (ctx : String) (tick : Nat) : List Ev :=
  if quit tick then [Ev.error "Operation cancelled by user.", Ev.finished]
  else if !vision_model then [Ev.error vision_not_init_msg, Ev.finished]
  else if !has_image then [Ev.error "No image provided to vision worker.", Ev.finished]
  else if quit (tick + 1) then
    [Ev.error "Operation cancelled by user.", Ev.finished, Ev.finished]
  else match remote with
    | .ok raw => [Ev.result [vision_output ctx raw], Ev.finished]
    | .err e => [Ev.error ("Vision API Error (" ++ ctx ++ "): " ++ e), Ev.finished]

/-- GeminiWorker.run, lines 360-365: the API-key check, the quit check at
line 362 (checkpoint 0) that emits only finished, the dispatch on the
operation type string, and the unknown-operation error. -/
def worker_run (api_key_valid text_model vision_model : Bool) (operation_type : String)
    (num_variations : Nat) (has_image : Bool) (ctx : String) (quit : Nat → Bool)
    (remote_text : Nat → RemoteRes) (remote_vision : RemoteRes) : List Ev :=
  if !api_key_valid then
    [Ev.error "Gemini API key is not configured or invalid.", Ev.finished]
  else if quit 0 then [Ev.finished]
  else if operation_type = "text" then
    run_text_generation quit text_model remote_text num_variations
  else if operation_type = "vision" then
    run_vision_generation quit vision_model has_image remote_vision ctx 1
  else [Ev.error ("Unknown worker operation type: " ++ operation_type), Ev.finished]

/-- Is the event one of the two terminal callbacks (result or error), as
opposed to the finished signal. -/
def is_terminal_ev : Ev → Bool
  | .finished => false
  | _ => true

/-- Is the event the error callback. -/
def is_error_ev : Ev → Bool
  | .error _ => true
  | _ => false

/-- Number of terminal callbacks in a trace. -/
def count_terminal (tr : List Ev) : Nat := tr.countP is_terminal_ev

/-- Number of finished signals in a trace. -/
def count_finished (tr : List Ev) : Nat := tr.countP (fun e => !is_terminal_ev e)

/-- Payload of the first result callback in a trace, if any. -/
def first_result : List Ev → Option (List String)
  | [] => none
  | Ev.result rs :: _ => some rs
  | _ :: t => first_result t

/-- Every terminal callback in the trace occurs strictly before every
finished signal. -/
def terminals_before_finished : List Ev → Bool
  | [] => true
  | Ev.finished :: rest => rest.all (fun e => !is_terminal_ev e)
  | _ :: rest => terminals_before_finished rest

/-- The (query, context, num_vars, op_type) quadruple handed to a new
GeminiWorker at promptcraft_ai_qt.py line 1182. -/
structure SchedJob where
  query : String
  ctx : String
  num_vars : Nat
  op : String
deriving DecidableEq

/-- Controller state touched by _trigger_gemini_operation: the running
worker thread (if any) with its request, and the module-level
num_variations_for_worker global. -/
structure SchedState where
  running_job : Option SchedJob
  num_variations_for_worker : Nat
deriving DecidableEq

/-- PromptCraftAI_Qt._trigger_gemini_operation, lines 1165-1200: line 1167
overwrites the num_variations_for_worker global before the busy check of
lines 1168-1171; a running thread causes a busy message and a rejected
submission; otherwise a new worker and thread are created and started.
Returns the new state and whether the submission was accepted. -/
def trigger_gemini_operation (st : SchedState) (q c : String) (n : Nat) (op : String) :
    SchedState × Bool :=
  let st1 : SchedState := { st with num_variations_for_worker := n }
  match st.running_job with
  | some _ => (st1, false)
  | none => ({ running_job := some ⟨q, c, n, op⟩, num_variations_for_worker := n }, true)

/-- Fold trigger_gemini_operation over a sequence of submissions, returning
the final state and each submission's accepted flag. -/
def trigger_all (st : SchedState) : List (String × String × Nat × String) → SchedState × List Bool
  | [] => (st, [])
  | (q, c, n, op) :: rest =>
    ((trigger_all (trigger_gemini_operation st q c n op).1 rest).1,
     (trigger_gemini_operation st q c n op).2 ::
       (trigger_all (trigger_gemini_operation st q c n op).1 rest).2)

/-- The failed-variation test of PromptCraftAI_Qt._handle_gemini_results,
lines 1329 and 1340: a case-sensitive substring test for the two markers. -/
def result_entry_is_failed (text : String) : Bool :=
  containsL ("API Error").data text.data || containsL ("Operation cancelled").data text.data

/-- The per-entry output block built at promptcraft_ai_qt.py
lines 1329-1331 for the multi-variation branch. -/
def format_result_entry (i : Nat) (text : String) : String :=
  if result_entry_is_failed text then
    "--- Variation " ++ toString (i + 1) ++ " FAILED ---\n" ++ text ++ "\n"
  else
    "--- Prompt Variation " ++ toString (i + 1) ++ " ---\n" ++ text ++ "\n"

/-! Helper lemmas. -/

lemma str_append_empty (s : String) : s ++ "" = s := by
  apply String.ext
  cases s with
  | mk d => show (String.append ⟨d⟩ ⟨[]⟩).data = d; simp [String.append]

/-- The head of the list, if any, is not whitespace. -/
def okHead (l : List Char) : Prop := ∀ a, l.head? = some a → pyIsSpace a = false

lemma okHead_dropWhile (l : List Char) : okHead (l.dropWhile pyIsSpace) := by
  induction l with
  | nil => intro a h; simp [List.dropWhile] at h
  | cons b t ih =>
    intro a h
    by_cases hb : pyIsSpace b = true
    · rw [List.dropWhile_cons_of_pos hb] at h
      exact ih a h
    · rw [List.dropWhile_cons_of_neg hb] at h
      simp at h
      rw [← h]
      simpa using hb

lemma dropWhile_eq_self_of_okHead {l : List Char} (h : okHead l) :
    l.dropWhile pyIsSpace = l := by
  cases l with
  | nil => rfl
  | cons b t =>
    have hb : pyIsSpace b = false := h b rfl
    simp [List.dropWhile, hb]

lemma dropWhile_eq_drop (l : List Char) :
    ∃ k, l.dropWhile pyIsSpace = l.drop k := by
  induction l with
  | nil => exact ⟨0, rfl⟩
  | cons b t ih =>
    by_cases hb : pyIsSpace b = true
    · obtain ⟨k, hk⟩ := ih
      exact ⟨k + 1, by simpa [List.dropWhile_cons_of_pos hb] using hk⟩
    · exact ⟨0, by simp [List.dropWhile_cons_of_neg hb]⟩

lemma okHead_append_singleton {y : List Char} {a : Char} (h : okHead (y ++ [a])) :
    y = [] ∨ okHead y := by
  cases y with
  | nil => exact Or.inl rfl
  | cons b t =>
    right
    intro c hc
    have hb := h b rfl
    simp at hc
    rw [← hc]
    exact hb

lemma okHead_reverse_drop (K : Nat) :
    ∀ m : List Char, okHead m.reverse → okHead ((m.drop K).reverse) := by
  induction K with
  | zero => intro m h; simpa using h
  | succ K ih =>
    intro m h
    cases m with
    | nil => intro a ha; simp at ha
    | cons b t =>
      have hr : (b :: t).reverse = t.reverse ++ [b] := by simp
      rw [hr] at h
      have ht : okHead t.reverse := by
        rcases okHead_append_singleton h with he | hok
        · intro a ha; rw [he] at ha; simp at ha
        · exact hok
      simpa using ih t ht

lemma okHead_stripLC (l : List Char) : okHead (stripLC l) := by
  unfold stripLC rstripL lstripL
  obtain ⟨k, hk⟩ := dropWhile_eq_drop (l.dropWhile pyIsSpace).reverse
  rw [hk]
  have := okHead_reverse_drop k (l.dropWhile pyIsSpace).reverse
    (by rw [List.reverse_reverse]; exact okHead_dropWhile l)
  exact this

lemma okLast_stripLC (l : List Char) : okHead (stripLC l).reverse := by
  unfold stripLC rstripL lstripL
  rw [List.reverse_reverse]
  exact okHead_dropWhile _

lemma stripLC_eq_self {m : List Char} (h1 : okHead m) (h2 : okHead m.reverse) :
    stripLC m = m := by
  unfold stripLC rstripL lstripL
  rw [dropWhile_eq_self_of_okHead h1, dropWhile_eq_self_of_okHead h2, List.reverse_reverse]

lemma stripLC_idem (l : List Char) : stripLC (stripLC l) = stripLC l :=
  stripLC_eq_self (okHead_stripLC l) (okLast_stripLC l)

lemma pyStrip_pyStrip (s : String) : pyStrip (pyStrip s) = pyStrip s :=
  String.ext (stripLC_idem s.data)

lemma okHead_lstrip_drop (m : List Char) (n : Nat) (h2 : okHead m.reverse) :
    okHead (lstripL (m.drop n)).reverse := by
  obtain ⟨k, hk⟩ := dropWhile_eq_drop (m.drop n)
  unfold lstripL
  rw [hk, List.drop_drop]
  exact okHead_reverse_drop (n + k) m h2

lemma pyStrip_strip_first_start (ps : List String) (m : List Char)
    (h1 : okHead m) (h2 : okHead m.reverse) :
    pyStrip (strip_first_start ps ⟨m⟩) = strip_first_start ps ⟨m⟩ := by
  induction ps with
  | nil =>
    show pyStrip ⟨m⟩ = (⟨m⟩ : String)
    exact String.ext (stripLC_eq_self h1 h2)
  | cons p ps ih =>
    by_cases hm : matches_start p ⟨m⟩ = true
    · have hstep : strip_first_start (p :: ps) ⟨m⟩ = pyLStrip ⟨m.drop p.data.length⟩ := by
        show (if matches_start p ⟨m⟩ then _ else _) = _
        rw [if_pos hm]
      rw [hstep]
      apply String.ext
      show stripLC (lstripL (m.drop p.data.length)) = lstripL (m.drop p.data.length)
      exact stripLC_eq_self (okHead_dropWhile _) (okHead_lstrip_drop m p.data.length h2)
    · have hstep : strip_first_start (p :: ps) ⟨m⟩ = strip_first_start ps ⟨m⟩ := by
        show (if matches_start p ⟨m⟩ then _ else _) = _
        rw [if_neg hm]
      rw [hstep]
      exact ih

lemma pyStrip_sanitizeText (raw : String) : pyStrip (sanitizeText raw) = sanitizeText raw :=
  pyStrip_pyStrip _

lemma pyStrip_sanitizeVision (raw : String) :
    pyStrip (sanitizeVision raw) = sanitizeVision raw := by
  show pyStrip (strip_first_start vision_unwanted_starts ⟨stripLC raw.data⟩) = _
  exact pyStrip_strip_first_start vision_unwanted_starts (stripLC raw.data)
    (okHead_stripLC raw.data) (okLast_stripLC raw.data)

lemma strip_first_start_no_match (ps : List String) (t : String)
    (h : ∀ p ∈ ps, matches_start p t = false) : strip_first_start ps t = t := by
  induction ps with
  | nil => rfl
  | cons p ps ih =>
    show (if matches_start p t then _ else _) = t
    rw [if_neg (by simp [h p (by simp)])]
    exact ih (fun q hq => h q (by simp [hq]))

lemma strip_first_end_no_match (ps : List String) (t : String)
    (h : ∀ p ∈ ps, matches_end p t = false) : strip_first_end ps t = t := by
  induction ps with
  | nil => rfl
  | cons p ps ih =>
    show (if matches_end p t then _ else _) = t
    rw [if_neg (by simp [h p (by simp)])]
    exact ih (fun q hq => h q (by simp [hq]))

lemma text_results_no_cancel (r : Nat → RemoteRes) :
    ∀ n i t, text_results (fun _ => false) true r n i t =
      (List.range' i n).map fun j =>
        match r j with
        | RemoteRes.ok raw => sanitizeText raw
        | RemoteRes.err e => api_error_msg j e := by
  intro n
  induction n with
  | zero => intro i t; rfl
  | succ n ih =>
    intro i t
    have hcore : generate_single_prompt_core (fun _ => false) true r i (t + 1) =
        (match r i with
         | RemoteRes.ok raw => sanitizeText raw
         | RemoteRes.err e => api_error_msg i e) := rfl
    show (if false then _ else _) = _
    rw [if_neg (by simp)]
    show _ :: text_results (fun _ => false) true r n (i + 1) (t + 2) = _
    rw [ih (i + 1) (t + 2), hcore]
    rfl

lemma text_results_uninit_indep (quit : Nat → Bool) (r1 r2 : Nat → RemoteRes) :
    ∀ n i t, text_results quit false r1 n i t = text_results quit false r2 n i t := by
  intro n
  induction n with
  | zero => intro i t; rfl
  | succ n ih =>
    intro i t
    cases hq : quit t with
    | true => simp [text_results, hq]
    | false => simp [text_results, hq, generate_single_prompt_core, ih (i + 1) (t + 2)]

lemma text_results_uninit (r : Nat → RemoteRes) :
    ∀ n i t, text_results (fun _ => false) false r n i t =
      (List.range' i n).map fun j => api_error_msg j text_not_init_msg := by
  intro n
  induction n with
  | zero => intro i t; rfl
  | succ n ih =>
    intro i t
    show (if false then _ else _) = _
    rw [if_neg (by simp)]
    show generate_single_prompt_core (fun _ => false) false r i (t + 1) ::
      text_results (fun _ => false) false r n (i + 1) (t + 2) = _
    rw [ih (i + 1) (t + 2)]
    rfl

lemma text_results_len_no_cancel (quit : Nat → Bool) (tm : Bool) (r : Nat → RemoteRes) :
    ∀ n i t, (∀ j, j < n → quit (t + 2 * j) = false) →
      (text_results quit tm r n i t).length = n := by
  intro n
  induction n with
  | zero => intro i t _; rfl
  | succ n ih =>
    intro i t h
    have h0 : quit t = false := by simpa using h 0 (by omega)
    have h' : ∀ j, j < n → quit (t + 2 + 2 * j) = false := by
      intro j hj
      have e : t + 2 * (j + 1) = t + 2 + 2 * j := by ring
      have := h (j + 1) (by omega)
      rwa [e] at this
    simp [text_results, h0, ih (i + 1) (t + 2) h']

lemma text_results_cancel_at (quit : Nat → Bool) (tm : Bool) (r : Nat → RemoteRes) :
    ∀ k n i t, k < n → quit (t + 2 * k) = true →
      (∀ j, j < k → quit (t + 2 * j) = false) →
      (text_results quit tm r n i t).length = k + 1 ∧
      (text_results quit tm r n i t).getLast? = some "Batch operation cancelled by user." := by
  intro k
  induction k with
  | zero =>
    intro n i t hn hq _
    cases n with
    | zero => omega
    | succ m =>
      have hq' : quit t = true := by simpa using hq
      simp [text_results, hq']
  | succ k ih =>
    intro n i t hn hq h
    cases n with
    | zero => omega
    | succ m =>
      have h0 : quit t = false := by simpa using h 0 (by omega)
      have hq' : quit (t + 2 + 2 * k) = true := by
        have e : t + 2 * (k + 1) = t + 2 + 2 * k := by ring
        rwa [e] at hq
      have h' : ∀ j, j < k → quit (t + 2 + 2 * j) = false := by
        intro j hj
        have e : t + 2 * (j + 1) = t + 2 + 2 * j := by ring
        have := h (j + 1) (by omega)
        rwa [e] at this
      obtain ⟨hlen, hlast⟩ := ih m (i + 1) (t + 2) (by omega) hq' h'
      constructor
      · simp [text_results, h0, hlen]
      · have hne : text_results quit tm r m (i + 1) (t + 2) ≠ [] := by
          intro hEmpty
          rw [hEmpty] at hlen
          simp at hlen
        simp only [text_results, h0, Bool.false_eq_true, if_false]
        cases hrest : text_results quit tm r m (i + 1) (t + 2) with
        | nil => exact absurd hrest hne
        | cons b l =>
          rw [hrest] at hlast
          rw [List.getLast?_cons_cons]
          exact hlast

/-! Claim theorems. -/

/-- Claim C1, counterexample.  With the API key valid and cancellation
already requested when run starts, the worker emits no terminal callback at
all, only the finished signal, so it is false that exactly one of the
terminal callbacks fires.  Moreover, on the VISION path with cancellation
first observed at the check just before the remote call, the finished
signal fires twice, not once. -/
theorem C1_counterexample :
    count_terminal (worker_run true true true "text" 2 false "c" (fun _ => true)
      (fun _ => RemoteRes.err "boom") (RemoteRes.err "boom")) = 0 ∧
    worker_run true true true "text" 2 false "c" (fun _ => true)
      (fun _ => RemoteRes.err "boom") (RemoteRes.err "boom") = [Ev.finished] ∧
    count_finished (worker_run true true true "vision" 1 true "image" (fun k => decide (2 ≤ k))
      (fun _ => RemoteRes.err "boom") (RemoteRes.err "boom")) = 2 ∧
    worker_run true true true "vision" 1 true "image" (fun k => decide (2 ≤ k))
      (fun _ => RemoteRes.err "boom") (RemoteRes.err "boom") =
      [Ev.error "Operation cancelled by user.", Ev.finished, Ev.finished] := by
  decide

/-- Claim C1, amended.  For every accepted submission at most one terminal
callback fires, every terminal callback precedes every finished signal, and
the finished signal fires once or twice.  No terminal callback fires
exactly when the key is valid and cancellation is already observed at the
start of run; the finished signal fires twice exactly on the VISION path
when cancellation is first observed at the check just before the remote
call (the explicit emit plus the finally-block emit); on every other path
exactly one terminal callback and exactly one finished signal fire, in that
order. -/
theorem C1_amended (valid tm vm : Bool) (op ctx : String) (N : Nat) (himg : Bool)
    (quit : Nat → Bool) (rT : Nat → RemoteRes) (rV : RemoteRes) :
    count_terminal (worker_run valid tm vm op N himg ctx quit rT rV) ≤ 1 ∧
    1 ≤ count_finished (worker_run valid tm vm op N himg ctx quit rT rV) ∧
    count_finished (worker_run valid tm vm op N himg ctx quit rT rV) ≤ 2 ∧
    terminals_before_finished (worker_run valid tm vm op N himg ctx quit rT rV) = true ∧
    (count_terminal (worker_run valid tm vm op N himg ctx quit rT rV) = 0 ↔
      valid = true ∧ quit 0 = true) ∧
    (count_finished (worker_run valid tm vm op N himg ctx quit rT rV) = 2 ↔
      valid = true ∧ quit 0 = false ∧ op = "vision" ∧ vm = true ∧ himg = true ∧
        quit 1 = false ∧ quit 2 = true) := by
  cases valid with
  | false =>
    simp [worker_run, count_terminal, count_finished, terminals_before_finished,
      is_terminal_ev, List.countP_cons, List.countP_nil]
  | true =>
    cases h0 : quit 0 with
    | true =>
      simp [worker_run, h0, count_terminal, count_finished, terminals_before_finished,
        is_terminal_ev, List.countP_cons, List.countP_nil]
    | false =>
      by_cases ht : op = "text"
      · subst ht
        simp [worker_run, h0, run_text_generation, count_terminal, count_finished,
          terminals_before_finished, is_terminal_ev, List.countP_cons, List.countP_nil]
      · by_cases hv : op = "vision"
        · subst hv
          cases h1 : quit 1 with
          | true =>
            simp [worker_run, h0, h1, run_vision_generation, count_terminal, count_finished,
              terminals_before_finished, is_terminal_ev, List.countP_cons, List.countP_nil]
          | false =>
            cases vm with
            | false =>
              simp [worker_run, h0, h1, run_vision_generation, count_terminal, count_finished,
                terminals_before_finished, is_terminal_ev, List.countP_cons, List.countP_nil]
            | true =>
              cases himg with
              | false =>
                simp [worker_run, h0, h1, run_vision_generation, count_terminal, count_finished,
                  terminals_before_finished, is_terminal_ev, List.countP_cons, List.countP_nil]
              | true =>
                cases h2 : quit 2 with
                | true =>
                  simp [worker_run, h0, h1, h2, run_vision_generation, count_terminal,
                    count_finished, terminals_before_finished, is_terminal_ev,
                    List.countP_cons, List.countP_nil]
                | false =>
                  cases rV with
                  | ok raw =>
                    simp [worker_run, h0, h1, h2, run_vision_generation, count_terminal,
                      count_finished, terminals_before_finished, is_terminal_ev,
                      List.countP_cons, List.countP_nil]
                  | err e =>
                    simp [worker_run, h0, h1, h2, run_vision_generation, count_terminal,
                      count_finished, terminals_before_finished, is_terminal_ev,
                      List.countP_cons, List.countP_nil]
        · simp [worker_run, h0, ht, hv, count_terminal, count_finished,
            terminals_before_finished, is_terminal_ev, List.countP_cons, List.countP_nil]

/-- Claim C2, counterexample.  A TEXT job with variationCount 2 whose
cancellation flag becomes set right after the run-start check produces a
Success list with a single sentinel entry, not 2 entries: the loop appends
one entry and breaks instead of filling the remaining slots. -/
theorem C2_counterexample :
    first_result (worker_run true true true "text" 2 false "c" (fun k => decide (1 ≤ k))
      (fun _ => RemoteRes.ok "hi") (RemoteRes.err "boom")) =
      some ["Batch operation cancelled by user."] ∧
    (["Batch operation cancelled by user."] : List String).length ≠ 2 := by
  decide

/-- Claim C2, amended.  The Success list of a TEXT job has exactly N
entries when the cancellation flag is false at every variation boundary
checkpoint; when it is first observed true at the boundary of variation k,
the list has k+1 entries and its last entry is the batch-cancellation
sentinel (the remaining slots are not filled). -/
theorem C2_amended (tm vm : Bool) (ctx : String) (N : Nat) (himg : Bool)
    (quit : Nat → Bool) (rT : Nat → RemoteRes) (rV : RemoteRes) :
    (quit 0 = false → (∀ j, j < N → quit (1 + 2 * j) = false) →
      first_result (worker_run true tm vm "text" N himg ctx quit rT rV) =
        some (text_results quit tm rT N 0 1) ∧
      (text_results quit tm rT N 0 1).length = N) ∧
    (∀ k, k < N → quit 0 = false → quit (1 + 2 * k) = true →
      (∀ j, j < k → quit (1 + 2 * j) = false) →
      first_result (worker_run true tm vm "text" N himg ctx quit rT rV) =
        some (text_results quit tm rT N 0 1) ∧
      (text_results quit tm rT N 0 1).length = k + 1 ∧
      (text_results quit tm rT N 0 1).getLast? = some "Batch operation cancelled by user.") := by
  have htr : quit 0 = false →
      first_result (worker_run true tm vm "text" N himg ctx quit rT rV) =
        some (text_results quit tm rT N 0 1) := by
    intro h0
    simp [worker_run, h0, run_text_generation, first_result]
  constructor
  · intro h0 hnc
    exact ⟨htr h0, text_results_len_no_cancel quit tm rT N 0 1 hnc⟩
  · intro k hk h0 hq h
    obtain ⟨hlen, hlast⟩ := text_results_cancel_at quit tm rT k N 0 1 hk hq h
    exact ⟨htr h0, hlen, hlast⟩

/-- Claim C2, witness for the amended theorem at a concrete input:
variationCount 2, flag set right after the run-start check, cancellation
observed at the boundary of variation 0. -/
theorem C2_witness :
    first_result (worker_run true true true "text" 2 false "c" (fun k => decide (1 ≤ k))
      (fun _ => RemoteRes.ok "hi") (RemoteRes.err "boom")) =
      some (text_results (fun k => decide (1 ≤ k)) true (fun _ => RemoteRes.ok "hi") 2 0 1) ∧
    (text_results (fun k => decide (1 ≤ k)) true (fun _ => RemoteRes.ok "hi") 2 0 1).length = 0 + 1 ∧
    (text_results (fun k => decide (1 ≤ k)) true (fun _ => RemoteRes.ok "hi") 2 0 1).getLast? =
      some "Batch operation cancelled by user." :=
  (C2_amended true true "c" 2 false (fun k => decide (1 ≤ k)) (fun _ => RemoteRes.ok "hi")
    (RemoteRes.err "boom")).2 0 (by decide) (by decide) (by decide)
    (fun j hj => absurd hj (Nat.not_lt_zero j))

/-- Claim C3, counterexample.  A TEXT job with the text model uninitialized
(but the API key valid because the vision model initialized) does not emit
a FatalError: the error callback never fires and the result callback
carries a Success list whose entry is a per-variation API Error string. -/
theorem C3_counterexample :
    (worker_run true false true "text" 1 false "c" (fun _ => false)
      (fun _ => RemoteRes.ok "hi") (RemoteRes.err "boom")).countP is_error_ev = 0 ∧
    first_result (worker_run true false true "text" 1 false "c" (fun _ => false)
      (fun _ => RemoteRes.ok "hi") (RemoteRes.err "boom")) =
      some ["API Error (Text Gen - Variation 1): Text model ('gemini-2.0-flash-thinking-exp-1219') is not initialized. Cannot generate text-based prompt."] := by
  decide

/-- Claim C3, amended.  The VISION path with an uninitialized vision model
emits a FatalError naming the vision model immediately (when not already
cancelled) and consults no remote capability; the TEXT path with an
uninitialized text model instead emits a Success outcome every entry of
which is a per-variation API Error string naming the uninitialized text
model, and also consults no remote capability (the trace is independent of
the remote oracle). -/
theorem C3_amended :
    (∀ (ctx : String) (himg : Bool) (quit : Nat → Bool) (r : RemoteRes) (t : Nat),
      quit t = false →
      run_vision_generation quit false himg r ctx t =
        [Ev.error vision_not_init_msg, Ev.finished]) ∧
    (∀ (quit : Nat → Bool) (r1 r2 : Nat → RemoteRes) (n i t : Nat),
      text_results quit false r1 n i t = text_results quit false r2 n i t) ∧
    (∀ (r : Nat → RemoteRes) (n : Nat),
      text_results (fun _ => false) false r n 0 1 =
        (List.range n).map fun j => api_error_msg j text_not_init_msg) ∧
    (∀ (ctx : String) (himg : Bool) (quit : Nat → Bool) (r1 r2 : RemoteRes) (t : Nat),
      run_vision_generation quit false himg r1 ctx t =
        run_vision_generation quit false himg r2 ctx t) := by
  refine ⟨?_, ?_, ?_, ?_⟩
  · intro ctx himg quit r t h
    simp [run_vision_generation, h]
  · intro quit r1 r2 n i t
    exact text_results_uninit_indep quit r1 r2 n i t
  · intro r n
    rw [List.range_eq_range']
    exact text_results_uninit r n 0 1
  · intro ctx himg quit r1 r2 t
    cases hq : quit t with
    | true => simp [run_vision_generation, hq]
    | false => simp [run_vision_generation, hq]

/-- Claim C3, witness for the amended theorem: concrete vision job with the
vision model uninitialized, and a concrete one-variation text job with the
text model uninitialized. -/
theorem C3_witness :
    run_vision_generation (fun _ => false) false true (RemoteRes.err "boom") "image" 1 =
      [Ev.error vision_not_init_msg, Ev.finished] ∧
    text_results (fun _ => false) false (fun _ => RemoteRes.ok "hi") 1 0 1 =
      (List.range 1).map fun j => api_error_msg j text_not_init_msg :=
  ⟨C3_amended.1 "image" true (fun _ => false) (RemoteRes.err "boom") 1 (by decide),
   C3_amended.2.2.1 (fun _ => RemoteRes.ok "hi") 1⟩

set_option maxRecDepth 8192 in
/-- Claim C4, counterexample.  With job A (3 variations) running and the
num_variations_for_worker global at 3, a rejected submission with 1
variation leaves the job handle alone but overwrites the global with 1;
that global feeds the variation-modifier branch of the payload builder, so
the payload built for the running job at variation index 1 changes. -/
theorem C4_counterexample :
    trigger_gemini_operation ⟨some ⟨"qa", "ca", 3, "text"⟩, 3⟩ "qb" "cb" 1 "text" =
      (⟨some ⟨"qa", "ca", 3, "text"⟩, 1⟩, false) ∧
    (1 : Nat) ≠ (3 : Nat) ∧
    gemini_prompt_payload "qa" "ca" 3 1 ≠ gemini_prompt_payload "qa" "ca" 1 1 := by
  decide

/-- Claim C4, amended.  While a job is running every submission is rejected
(busy) and no second job is created, for arbitrary sequences of further
submissions; but each rejected submission overwrites the shared
num_variations_for_worker global (line 1167 runs before the busy check). -/
theorem C4_amended :
    (∀ (st : SchedState) (q c : String) (n : Nat) (op : String),
      st.running_job.isSome = true →
      trigger_gemini_operation st q c n op =
        ({ st with num_variations_for_worker := n }, false)) ∧
    (∀ (st : SchedState) (subs : List (String × String × Nat × String)),
      st.running_job.isSome = true →
      (trigger_all st subs).1.running_job = st.running_job ∧
      (trigger_all st subs).2.all (fun b => b = false) = true) := by
  have h1 : ∀ (st : SchedState) (q c : String) (n : Nat) (op : String),
      st.running_job.isSome = true →
      trigger_gemini_operation st q c n op =
        ({ st with num_variations_for_worker := n }, false) := by
    intro st q c n op h
    obtain ⟨j, hj⟩ := Option.isSome_iff_exists.mp h
    simp [trigger_gemini_operation, hj]
  refine ⟨h1, ?_⟩
  intro st subs
  induction subs generalizing st with
  | nil => intro _; exact ⟨rfl, rfl⟩
  | cons s rest ih =>
    intro h
    obtain ⟨q, c, n, op⟩ := s
    have hstep := h1 st q c n op h
    have h' : ({ st with num_variations_for_worker := n } : SchedState).running_job.isSome = true := h
    obtain ⟨ha, hb⟩ := ih { st with num_variations_for_worker := n } h'
    simp only [trigger_all, hstep]
    refine ⟨ha, ?_⟩
    rw [List.all_cons]
    simpa using hb

/-- Claim C4, witness for the amended theorem at a concrete running state. -/
theorem C4_witness :
    trigger_gemini_operation ⟨some ⟨"qa", "ca", 3, "text"⟩, 3⟩ "qb" "cb" 1 "text" =
      (⟨some ⟨"qa", "ca", 3, "text"⟩, 1⟩, false) ∧
    (trigger_all ⟨some ⟨"qa", "ca", 3, "text"⟩, 3⟩
      [("qb", "cb", 1, "text"), ("qc", "cc", 5, "vision")]).1.running_job =
      (⟨some ⟨"qa", "ca", 3, "text"⟩, 3⟩ : SchedState).running_job ∧
    (trigger_all ⟨some ⟨"qa", "ca", 3, "text"⟩, 3⟩
      [("qb", "cb", 1, "text"), ("qc", "cc", 5, "vision")]).2.all (fun b => b = false) = true :=
  ⟨C4_amended.1 ⟨some ⟨"qa", "ca", 3, "text"⟩, 3⟩ "qb" "cb" 1 "text" rfl,
   (C4_amended.2 ⟨some ⟨"qa", "ca", 3, "text"⟩, 3⟩
     [("qb", "cb", 1, "text"), ("qc", "cc", 5, "vision")] rfl).1,
   (C4_amended.2 ⟨some ⟨"qa", "ca", 3, "text"⟩, 3⟩
     [("qb", "cb", 1, "text"), ("qc", "cc", 5, "vision")] rfl).2⟩

/-- Claim C5, confirmed.  On the TEXT path with the key valid, the text
model initialized and no cancellation, the worker always delivers the
outcome through the result callback (never the error callback): entry i of
the list is the sanitized response when the remote call for variation i
returns, and the per-variation API Error string when it raises, so a
failure at one index leaves every other index intact. -/
theorem C5_partial_failure_isolation (vm : Bool) (ctx : String) (N : Nat) (himg : Bool)
    (remote : Nat → RemoteRes) (rV : RemoteRes) :
    worker_run true true vm "text" N himg ctx (fun _ => false) remote rV =
      [Ev.result ((List.range N).map fun i =>
        match remote i with
        | RemoteRes.ok raw => sanitizeText raw
        | RemoteRes.err e => api_error_msg i e), Ev.finished] ∧
    count_terminal (worker_run true true vm "text" N himg ctx (fun _ => false) remote rV) = 1 ∧
    (worker_run true true vm "text" N himg ctx (fun _ => false) remote rV).countP is_error_ev = 0 := by
  have h : worker_run true true vm "text" N himg ctx (fun _ => false) remote rV =
      [Ev.result (text_results (fun _ => false) true remote N 0 1), Ev.finished] := rfl
  refine ⟨?_, ?_, ?_⟩
  · rw [h, text_results_no_cancel remote N 0 1, List.range_eq_range']
  · rw [h]
    simp [count_terminal, is_terminal_ev, List.countP_cons, List.countP_nil]
  · rw [h]
    simp [is_error_ev, List.countP_cons, List.countP_nil]

/-- Claim C6, confirmed.  The prefix loop checks the ordered phrase list
case-insensitively and on the first match removes exactly that phrase plus
following whitespace, ignoring the remaining phrases (no cascading); the
suffix loop behaves dually and is applied by the TEXT sanitizer only, not
the VISION one; both sanitizers return trimmed output, never raise (they
are total functions), and on boilerplate-free input return exactly the
trimmed input. -/
theorem C6_sanitizer_contract :
    (∀ (p : String) (ps : List String) (t : String), matches_start p t = true →
      strip_first_start (p :: ps) t = pyLStrip ⟨t.data.drop p.data.length⟩) ∧
    (∀ (p : String) (ps : List String) (t : String), matches_end p t = true →
      strip_first_end (p :: ps) t = pyRStrip ⟨t.data.take (t.data.length - p.data.length)⟩) ∧
    (∀ t : String, (∀ p ∈ unwanted_starts, matches_start p (pyStrip t) = false) →
      (∀ p ∈ unwanted_ends, matches_end p (pyStrip t) = false) →
      sanitizeText t = pyStrip t) ∧
    (∀ t : String, (∀ p ∈ vision_unwanted_starts, matches_start p (pyStrip t) = false) →
      sanitizeVision t = pyStrip t) ∧
    (∀ t : String, pyStrip (sanitizeText t) = sanitizeText t) ∧
    (∀ t : String, pyStrip (sanitizeVision t) = sanitizeVision t) ∧
    sanitizeText "HERE'S THE PROMPT: a Red Fox" = "a Red Fox" ∧
    sanitizeText "nice prompt Hope this helps!" = "nice prompt" ∧
    sanitizeVision "nice prompt Hope this helps!" = "nice prompt Hope this helps!" := by
  refine ⟨?_, ?_, ?_, ?_, pyStrip_sanitizeText, pyStrip_sanitizeVision, by decide, by decide, by decide⟩
  · intro p ps t hm
    show (if matches_start p t then _ else _) = _
    rw [if_pos hm]
  · intro p ps t hm
    show (if matches_end p t then _ else _) = _
    rw [if_pos hm]
  · intro t h1 h2
    show pyStrip (strip_first_end unwanted_ends
      (strip_first_start unwanted_starts (pyStrip t))) = pyStrip t
    rw [strip_first_start_no_match _ _ h1, strip_first_end_no_match _ _ h2, pyStrip_pyStrip]
  · intro t h
    show strip_first_start vision_unwanted_starts (pyStrip t) = pyStrip t
    rw [strip_first_start_no_match _ _ h]

/-- Claim C6, witness at a concrete boilerplate-free input. -/
theorem C6_witness : sanitizeText "hello" = pyStrip "hello" :=
  C6_sanitizer_contract.2.2.1 "hello" (by decide) (by decide)

/-- Claim C7, counterexample.  The sanitizer is not idempotent: stripping
the first boilerplate prefix can expose a second one, which only a second
application removes. -/
theorem C7_counterexample :
    sanitizeText (sanitizeText "Prompt: Prompt: hello") ≠ sanitizeText "Prompt: Prompt: hello" ∧
    sanitizeText "Prompt: Prompt: hello" = "Prompt: hello" ∧
    sanitizeText (sanitizeText "Prompt: Prompt: hello") = "hello" := by
  decide

/-- Claim C7, amended.  The sanitizer is idempotent exactly on those inputs
whose sanitized output no longer matches any known prefix phrase (and, for
the TEXT sanitizer, any known suffix phrase): since the output is always
trimmed, a second application is then the identity.  In general a second
application can strip one further phrase. -/
theorem C7_amended :
    (∀ t : String, (∀ p ∈ unwanted_starts, matches_start p (sanitizeText t) = false) →
      (∀ p ∈ unwanted_ends, matches_end p (sanitizeText t) = false) →
      sanitizeText (sanitizeText t) = sanitizeText t) ∧
    (∀ t : String, (∀ p ∈ vision_unwanted_starts, matches_start p (sanitizeVision t) = false) →
      sanitizeVision (sanitizeVision t) = sanitizeVision t) := by
  constructor
  · intro t h1 h2
    show pyStrip (strip_first_end unwanted_ends
      (strip_first_start unwanted_starts (pyStrip (sanitizeText t)))) = sanitizeText t
    rw [pyStrip_sanitizeText t, strip_first_start_no_match _ _ h1,
      strip_first_end_no_match _ _ h2, pyStrip_sanitizeText t]
  · intro t h
    show strip_first_start vision_unwanted_starts (pyStrip (sanitizeVision t)) = sanitizeVision t
    rw [pyStrip_sanitizeVision t, strip_first_start_no_match _ _ h]

/-- Claim C7, witness for the amended theorem at a concrete input. -/
theorem C7_witness : sanitizeText (sanitizeText "hello") = sanitizeText "hello" :=
  C7_amended.1 "hello" (by decide) (by decide)

/-- Claim C8, counterexample.  A VISION job with no attached image AND
cancellation already requested at run start does not terminate with a
FatalError: the worker emits only the finished signal and the error
callback never fires. -/
theorem C8_counterexample :
    worker_run true true true "vision" 1 false "c" (fun _ => true)
      (fun _ => RemoteRes.err "boom") (RemoteRes.err "boom") = [Ev.finished] ∧
    (worker_run true true true "vision" 1 false "c" (fun _ => true)
      (fun _ => RemoteRes.err "boom") (RemoteRes.err "boom")).countP is_error_ev = 0 := by
  decide

/-- Claim C8, amended.  A VISION job with the vision capability
uninitialized, or with no attached image, terminates immediately with a
FatalError (the missing-image description begins with the words No image
provided) and consults no remote capability; but cancellation already
requested at run start yields only the finished signal with no terminal
callback, while cancellation first observed at the vision-path entry yields
the cancellation FatalError. -/
theorem C8_amended :
    (∀ (tm vm : Bool) (N : Nat) (himg : Bool) (ctx : String) (quit : Nat → Bool)
      (rT : Nat → RemoteRes) (rV : RemoteRes),
      quit 0 = true →
      worker_run true tm vm "vision" N himg ctx quit rT rV = [Ev.finished]) ∧
    (∀ (ctx : String) (quit : Nat → Bool) (r : RemoteRes) (t : Nat),
      quit t = false →
      run_vision_generation quit true false r ctx t =
        [Ev.error "No image provided to vision worker.", Ev.finished]) ∧
    startsWithL ("No image provided").data ("No image provided to vision worker.").data = true ∧
    (∀ (himg : Bool) (ctx : String) (quit : Nat → Bool) (r : RemoteRes) (t : Nat),
      quit t = false →
      run_vision_generation quit false himg r ctx t =
        [Ev.error vision_not_init_msg, Ev.finished]) ∧
    (∀ (vm himg : Bool) (ctx : String) (quit : Nat → Bool) (r : RemoteRes) (t : Nat),
      quit t = true →
      run_vision_generation quit vm himg r ctx t =
        [Ev.error "Operation cancelled by user.", Ev.finished]) ∧
    (∀ (ctx : String) (quit : Nat → Bool) (r1 r2 : RemoteRes) (t : Nat),
      run_vision_generation quit true false r1 ctx t =
        run_vision_generation quit true false r2 ctx t) := by
  refine ⟨?_, ?_, by decide, ?_, ?_, ?_⟩
  · intro tm vm N himg ctx quit rT rV h
    simp [worker_run, h]
  · intro ctx quit r t h
    simp [run_vision_generation, h]
  · intro himg ctx quit r t h
    simp [run_vision_generation, h]
  · intro vm himg ctx quit r t h
    simp [run_vision_generation, h]
  · intro ctx quit r1 r2 t
    cases hq : quit t with
    | true => simp [run_vision_generation, hq]
    | false => simp [run_vision_generation, hq]

/-- Claim C8, witness for the amended theorem at concrete inputs. -/
theorem C8_witness :
    run_vision_generation (fun _ => false) true false (RemoteRes.err "boom") "image" 1 =
      [Ev.error "No image provided to vision worker.", Ev.finished] :=
  C8_amended.2.1 "image" (fun _ => false) (RemoteRes.err "boom") 1 (by decide)

/-- Claim C9, confirmed.  The payload for variation index 0 carries no
variation suffix; for a variation request (count at least 2) and index at
least 1 the payload is the base payload followed by exactly one rotation
instruction selected by the index modulo the rotation length, and the
rotation has length 4. -/
theorem C9_variation_rotation :
    (∀ (q c : String) (N : Nat), gemini_prompt_payload q c N 0 =
      system_instruction c ++ "\n\nUser's Request Details (aim for high detail):\n" ++ q) ∧
    (∀ (q c : String) (M j : Nat), gemini_prompt_payload q c (M + 2) (j + 1) =
      system_instruction c ++ "\n\nUser's Request Details (aim for high detail):\n" ++ q ++
        ("\n\nInstruction for this specific variation (out of several): " ++
          variation_prompts.getD ((j + 1) % 4) "" ++
          " Ensure maximum detail and output only the prompt.")) ∧
    variation_prompts.length = 4 := by
  refine ⟨?_, ?_, rfl⟩
  · intro q c N
    show system_instruction c ++ "\n\nUser's Request Details (aim for high detail):\n" ++ q ++
      variation_modifier N 0 = _
    rw [show variation_modifier N 0 = "" from by simp [variation_modifier], str_append_empty]
  · intro q c M j
    simp only [gemini_prompt_payload, variation_modifier]
    rw [if_pos ⟨by omega, by omega⟩]
    rfl

/-- Claim C10, confirmed.  The result handler classifies an entry as a
failed variation exactly when it contains the substring API Error or the
substring Operation cancelled, case-sensitively; the batch-cancellation
sentinel contains neither (its operation is lower-case), so it is rendered
with the success header, while the capital-O variant would be classified
failed. -/
theorem C10_cancel_sentinel_not_failed :
    (∀ t : String, result_entry_is_failed t =
      (containsL ("API Error").data t.data || containsL ("Operation cancelled").data t.data)) ∧
    containsL ("API Error").data ("Batch operation cancelled by user.").data = false ∧
    containsL ("Operation cancelled").data ("Batch operation cancelled by user.").data = false ∧
    result_entry_is_failed "Batch operation cancelled by user." = false ∧
    result_entry_is_failed "Batch Operation cancelled by user." = true ∧
    result_entry_is_failed "Operation cancelled by user." = true ∧
    result_entry_is_failed (api_error_msg 0 "boom") = true ∧
    format_result_entry 0 "Batch operation cancelled by user." =
      "--- Prompt Variation 1 ---\nBatch operation cancelled by user.\n" := by
  exact ⟨fun t => rfl, by decide, by decide, by decide, by decide, by decide, by decide, by decide⟩

end PromptCraft
